import Mathlib

/-!
Verification development for the UGC video manager's scheduling core.

The definitions below are shallow embeddings of the Python source:
`src/queue/queue_manager.py` (QueueManager), `src/utils/database.py`
(DatabaseManager, in-memory fallback store), `src/matchers/channel_matcher.py`
(ChannelMatcher scoring), `src/processors/video_processor.py`
(VideoProcessor pipeline), and the SQL queries / stored procedures the
queue manager issues (the stored procedures are defined in
`scripts/setup_supabase.py`).

Conventions of the embedding:
- timestamps are natural numbers (the Python code stores ISO strings whose
  lexicographic order coincides with chronological order);
- ids and store keys are natural numbers (Python uses uuid strings);
- Python floats are modelled as rationals;
- the in-memory store (a Python dict, insertion ordered) is a list of
  key/record pairs; `dict.values()` is the list of second components.
-/

namespace UGC

/-- Lifecycle status of a queue item (the `status` column of `upload_queue`). -/
inductive Status where
  | pending
  | processing
  | ready
  | uploaded
  | failed
deriving DecidableEq, Repr

/-- One record of the upload queue, with the fields the queue manager reads
and writes (`QueueManager.add_to_queue` builds exactly this dict). -/
structure QItem where
  id : ℕ
  video_file_path : String
  video_file_name : String
  file_size_mb : ℚ
  channel_id : ℕ
  title : String
  description : String
  tags : List String
  coupang_url : Option String
  priority : ℤ
  scheduled_time : Option ℕ
  status : Status
  created_at : ℕ
  updated_at : ℕ
  error_message : Option String
deriving DecidableEq, Repr

/-- Valid status transitions, from `QueueManager._init_status_transitions`. -/
def status_transitions : Status → List Status
  | .pending => [.processing, .failed]
  | .processing => [.ready, .failed]
  | .ready => [.uploaded, .failed, .pending]
  | .uploaded => []
  | .failed => [.pending]

/-- Comparison used by the in-memory queue listing: Python sorts by the key
tuple `(-priority, created_at)` ascending, i.e. priority descending and
`created_at` ascending within equal priority. -/
def keyLe (a b : QItem) : Prop :=
  b.priority < a.priority ∨ (a.priority = b.priority ∧ a.created_at ≤ b.created_at)

instance : DecidableRel keyLe := fun a b => by
  unfold keyLe; infer_instance

instance : IsTotal QItem keyLe := ⟨by
  intro a b; unfold keyLe; omega⟩

instance : IsTrans QItem keyLe := ⟨by
  intro a b c; unfold keyLe; omega⟩

/-- The in-memory store `DatabaseManager._mem_queue`: a Python dict mapping a
store key to a queue record, in insertion order. -/
abbrev Store := List (ℕ × QItem)

/-- The list of records, as Python's `dict.values()`. -/
def values (s : Store) : List QItem := s.map Prod.snd

/-- Embedding of `DatabaseManager.get_queue_items` (memory path): optionally
filter by status, sort by `(-priority, created_at)`, take `limit`. -/
def get_queue_items (st : Option Status) (limit : ℕ) (s : Store) : List QItem :=
  let items := match st with
    | some v => (values s).filter (fun (i : QItem) => i.status = v)
    | none => values s
  (items.insertionSort keyLe).take limit

/-- Field update performed by `DatabaseManager.update_queue_item`: sets the
status, optionally the error message (`none` means the key was absent from
the updates dict), and always bumps `updated_at`. -/
def applyUpdate (st : Status) (em : Option (Option String)) (now : ℕ) (i : QItem) : QItem :=
  { i with
    status := st
    error_message := match em with | some v => v | none => i.error_message
    updated_at := now }

/-- Embedding of `DatabaseManager.update_queue_item` (memory path): look the
record up by its STORE KEY (`self._mem_queue.get(queue_id)`); if absent,
return `none` and change nothing. -/
def update_queue_item (k : ℕ) (st : Status) (em : Option (Option String)) (now : ℕ)
    (s : Store) : Option QItem × Store :=
  match s.find? (fun p => p.1 = k) with
  | none => (none, s)
  | some _ =>
    let s2 := s.map (fun p => if p.1 = k then (p.1, applyUpdate st em now p.2) else p)
    ((s2.find? (fun p => p.1 = k)).map Prod.snd, s2)

/-- Embedding of `QueueManager.get_next_video` (in-memory fallback path): take
the first pending item of `get_queue_items(status='pending', limit=1)` and
update its status to processing via `update_queue_item(entry['id'], ...)`.
Note the update is keyed by the record's `id` field. -/
def get_next_video (now : ℕ) (s : Store) : Option QItem × Store :=
  match get_queue_items (some .pending) 1 s with
  | [] => (none, s)
  | e :: _ => (some e, (update_queue_item e.id .processing none now s).2)

/-- Embedding of `QueueManager._get_current_status` (memory path): scan the
first 100 listed items for the record whose `id` field matches. -/
def get_current_status (qid : ℕ) (s : Store) : Option Status :=
  ((get_queue_items none 100 s).find? (fun i => i.id = qid)).map (fun i => i.status)

/-- Result of `QueueManager.update_status`: the returned boolean, plus the
current/requested pair logged on the invalid-transition branch. -/
structure StatusResult where
  ok : Bool
  invalid : Option (Status × Status)
deriving DecidableEq, Repr

/-- Embedding of `QueueManager.update_status` (memory path): reject when the
entry is not found, reject (logging both states) when the requested status is
neither a tabled transition nor equal to the current status, otherwise write
the new status and error message. -/
def update_status (qid : ℕ) (newStatus : Status) (em : Option String) (now : ℕ)
    (s : Store) : StatusResult × Store :=
  match get_current_status qid s with
  | none => (⟨false, none⟩, s)
  | some cur =>
    if newStatus ∉ status_transitions cur ∧ newStatus ≠ cur then
      (⟨false, some (cur, newStatus)⟩, s)
    else
      (⟨true, none⟩, (update_queue_item qid newStatus (some em) now s).2)

/-- Embedding of `QueueManager.retry_failed`: reset the entry to pending. -/
def retry_failed (qid : ℕ) (now : ℕ) (s : Store) : StatusResult × Store :=
  update_status qid .pending none now s

/-- Embedding of `VideoProcessor.reprocess_failed`: fetch up to 10 failed
entries via `get_queue_status(status_filter='failed', limit=10)` and retry
each; returns the number of fetched entries. -/
def reprocess_failed (now : ℕ) (s : Store) : ℕ × Store :=
  let failed_entries := get_queue_items (some .failed) 10 s
  (failed_entries.length, failed_entries.foldl (fun acc e => (retry_failed e.id now acc).2) s)

/-- The dict `QueueManager.add_to_queue` passes to `DatabaseManager.add_to_queue`
on the in-memory path. -/
structure QueueItemInput where
  id : ℕ
  video_file_path : String
  video_file_name : String
  file_size_mb : ℚ
  channel_id : ℕ
  title : String
  description : String
  tags : List String
  coupang_url : Option String
  priority : ℤ
  scheduled_time : Option ℕ
  status : Status
deriving DecidableEq, Repr

/-- Embedding of `DatabaseManager.add_to_queue` (memory path): a fresh store
key `dbKey` is generated, the record merges defaults with the caller's dict,
and the caller's keys win — in particular the record's `id` is the CALLER's
id, while the record is stored under `dbKey`. -/
def db_add_to_queue (dbKey now : ℕ) (qi : QueueItemInput) (s : Store) : QItem × Store :=
  let record : QItem := {
    id := qi.id
    video_file_path := qi.video_file_path
    video_file_name := qi.video_file_name
    file_size_mb := qi.file_size_mb
    channel_id := qi.channel_id
    title := qi.title
    description := qi.description
    tags := qi.tags
    coupang_url := qi.coupang_url
    priority := qi.priority
    scheduled_time := qi.scheduled_time
    status := qi.status
    created_at := now
    updated_at := now
    error_message := none }
  (record, s ++ [(dbKey, record)])

/-- Embedding of `QueueManager.add_to_queue` (in-memory path): reject when the
file does not exist or its size in MB is above `maxMB` or below `minMB`;
otherwise persist a pending item and return its id (`rec.get('id', queue_id)`).
No validation of title or description is performed. -/
def add_to_queue (minMB maxMB : ℚ) (fileExists : Bool) (fileSizeMB : ℚ)
    (videoPath videoName : String) (channelId : ℕ) (title description : String)
    (tags : List String) (coupangUrl : Option String) (priority : ℤ)
    (scheduledTime : Option ℕ) (queueId dbKey now : ℕ) (s : Store) :
    Option ℕ × Store :=
  if fileExists = false then (none, s)
  else if maxMB < fileSizeMB then (none, s)
  else if fileSizeMB < minMB then (none, s)
  else
    let qi : QueueItemInput := {
      id := queueId
      video_file_path := videoPath
      video_file_name := videoName
      file_size_mb := fileSizeMB
      channel_id := channelId
      title := title
      description := description
      tags := tags
      coupang_url := coupangUrl
      priority := priority
      scheduled_time := scheduledTime
      status := .pending }
    let r := db_add_to_queue dbKey now qi s
    (some r.1.id, r.2)

/-- A row of `youtube_channels`, with the columns the claim protocol reads. -/
structure Channel where
  id : ℕ
  is_active : Bool
  max_daily_uploads : ℕ
deriving DecidableEq, Repr

/-- Embedding of the stored procedure `check_channel_upload_limit`
(`scripts/setup_supabase.py`): look the channel up requiring `is_active`;
missing or inactive gives false; otherwise compare today's upload count
(0 when no row) against `max_daily_uploads`. -/
def check_channel_upload_limit (channels : List Channel) (uploads : ℕ → ℕ) (cid : ℕ) : Bool :=
  match channels.find? (fun c => c.id = cid ∧ c.is_active = true) with
  | none => false
  | some c => uploads cid < c.max_daily_uploads

/-- State visible to the SQL claim query: the queue table, the channel table,
today's per-channel upload counts, and the current time. -/
structure SqlState where
  queue : List QItem
  channels : List Channel
  uploads : ℕ → ℕ
  now : ℕ

/-- The WHERE clause of the claim query in `QueueManager.get_next_video`
(SQL path): pending, joined to an active channel, schedule unset or past,
and `check_channel_upload_limit` true. -/
def sql_eligible (st : SqlState) (q : QItem) : Bool :=
  decide (q.status = .pending) &&
  st.channels.any (fun c => c.id = q.channel_id ∧ c.is_active = true) &&
  (match q.scheduled_time with | none => true | some t => decide (t ≤ st.now)) &&
  check_channel_upload_limit st.channels st.uploads q.channel_id

/-- Embedding of `QueueManager.update_status` on the SQL path: the current
status comes from `SELECT status ... WHERE id`, the write is an
`UPDATE ... SET status, error_message, updated_at WHERE id`. -/
def sql_update_status (qid : ℕ) (newStatus : Status) (em : Option String) (now : ℕ)
    (l : List QItem) : StatusResult × List QItem :=
  match (l.find? (fun (i : QItem) => i.id = qid)).map (fun i => i.status) with
  | none => (⟨false, none⟩, l)
  | some cur =>
    if newStatus ∉ status_transitions cur ∧ newStatus ≠ cur then
      (⟨false, some (cur, newStatus)⟩, l)
    else
      (⟨true, none⟩,
        l.map (fun (i : QItem) =>
          if i.id = qid then { i with status := newStatus, error_message := em, updated_at := now }
          else i))

/-- Embedding of `QueueManager.get_next_video` on the SQL path: filter by the
WHERE clause, order by priority descending then `created_at` ascending, take
one row, and transition it to processing through `update_status`. -/
def sql_get_next_video (st : SqlState) : Option QItem × List QItem :=
  match ((st.queue.filter (sql_eligible st)).insertionSort keyLe).take 1 with
  | [] => (none, st.queue)
  | e :: _ => (some e, (sql_update_status e.id .processing none st.now st.queue).2)

/-- A row of `upload_history`, as inserted by `QueueManager.mark_as_uploaded`. -/
structure UploadRec where
  queue_id : ℕ
  channel_id : ℕ
  video_file_name : String
  youtube_video_id : String
  youtube_video_url : String
  upload_time : ℕ
deriving DecidableEq, Repr

/-- State touched by `mark_as_uploaded`: the queue table, the append-only
history table, and today's per-channel upload counters. -/
structure UpState where
  queue : List QItem
  history : List UploadRec
  uploads : ℕ → ℕ

/-- Embedding of the stored procedure `increment_upload_count`
(`scripts/setup_supabase.py`): upsert adding one to today's counter. -/
def increment_upload_count_db (uploads : ℕ → ℕ) (cid : ℕ) : ℕ → ℕ :=
  fun c => if c = cid then uploads c + 1 else uploads c

/-- Embedding of `QueueManager.mark_as_uploaded` (SQL path) with a fault
injected at the quota increment when `incFault` is true. The body runs inside
`DatabaseManager.transaction`: an exception escaping the body rolls every
statement back and the outer handler returns false. The status update's own
result is ignored by the code; a missing queue row raises (rollback); the
history insert appends a row; `_increment_upload_count` wraps its query in
its own try/except, so a fault there is swallowed, the body completes, and
the transaction commits. -/
def mark_as_uploaded (incFault : Bool) (qid : ℕ) (ytid yturl : String) (now : ℕ)
    (st : UpState) : Bool × UpState :=
  let q1 := (sql_update_status qid .uploaded none now st.queue).2
  match q1.find? (fun (i : QItem) => i.id = qid) with
  | none => (false, st)
  | some row =>
    let hist := st.history ++
      [{ queue_id := qid
         channel_id := row.channel_id
         video_file_name := row.video_file_name
         youtube_video_id := ytid
         youtube_video_url := yturl
         upload_time := now }]
    let ups := if incFault then st.uploads else increment_upload_count_db st.uploads row.channel_id
    (true, { queue := q1, history := hist, uploads := ups })

/-- A channel row as seen by the scorer (`ChannelMatcher._score_channels`). -/
structure ScChannel where
  id : ℕ
  category : String
  channel_type : String
  max_daily_uploads : ℤ
  today_uploads : ℤ
deriving DecidableEq, Repr

/-- The static table `ChannelMatcher._initialize_category_mapping`, read with
default `["general", "lifestyle"]` for unknown keys. -/
def category_mapping (c : String) : List String :=
  match c with
  | "technology" => ["technology", "tech", "gadget", "review"]
  | "tech" => ["technology", "tech", "gadget", "review"]
  | "beauty" => ["beauty", "cosmetics", "makeup", "lifestyle"]
  | "fashion" => ["fashion", "style", "clothing", "lifestyle"]
  | "food" => ["food", "cooking", "recipe", "lifestyle"]
  | "lifestyle" => ["lifestyle", "general", "vlog", "daily"]
  | "gaming" => ["gaming", "game", "esports", "entertainment"]
  | "sports" => ["sports", "fitness", "health", "lifestyle"]
  | "home" => ["home", "interior", "diy", "lifestyle"]
  | "kids" => ["kids", "toy", "children", "family"]
  | "pet" => ["pet", "animal", "lifestyle"]
  | "travel" => ["travel", "tourism", "lifestyle"]
  | "unknown" => ["general", "lifestyle", "misc"]
  | _ => ["general", "lifestyle"]

/-- ASCII lower-casing of one character, as Python's `str.lower` acts on the
ASCII category and type strings this code compares. -/
def ascii_lower (c : Char) : Char :=
  if 'A' ≤ c ∧ c ≤ 'Z' then Char.ofNat (c.toNat + 32) else c

/-- Python's `str.lower()` on the ASCII strings involved here. -/
def py_lower (s : String) : String := ⟨s.data.map ascii_lower⟩

/-- Lookup in one row of the content-weight matrix: Python does
`content_weight.get(channel_type, 0.5)` on a dict with keys main and sub. -/
def weight_lookup (mainW subW : ℚ) (chty : String) : ℚ :=
  if chty = "main" then mainW else if chty = "sub" then subW else 0.5

/-- The static table `ChannelMatcher._initialize_content_weights`, read with
default `{main: 0.5, sub: 0.5}` for unknown content types. -/
def content_type_weight (ct chty : String) : ℚ :=
  match ct with
  | "review" => weight_lookup 1.0 0.8 chty
  | "unboxing" => weight_lookup 0.9 0.9 chty
  | "tutorial" => weight_lookup 0.8 1.0 chty
  | "comparison" => weight_lookup 1.0 0.7 chty
  | "haul" => weight_lookup 0.7 1.0 chty
  | "unknown" => weight_lookup 0.5 0.5 chty
  | _ => weight_lookup 0.5 0.5 chty

/-- Score of one channel, from the body of `ChannelMatcher._score_channels`:
category match (1.0 direct, 0.6 related, 0.3 generic), content-type weight,
capacity bonus `min(0.5, remaining * 0.1)`, kind bonus (0.3 main / 0.1 sub),
all multiplied by the confidence. -/
def score_channel (video_category content_type : String) (confidence : ℚ)
    (c : ScChannel) : ℚ :=
  let matching := category_mapping (py_lower video_category)
  let ccat := py_lower c.category
  let s1 : ℚ :=
    if ccat ∈ matching then
      (if ccat = py_lower video_category then 1.0 else 0.6)
    else if ccat ∈ ["general", "lifestyle", "misc"] then 0.3
    else 0
  let s2 := content_type_weight content_type c.channel_type
  let remaining : ℤ := c.max_daily_uploads - c.today_uploads
  let s3 : ℚ := min 0.5 ((remaining : ℚ) * 0.1)
  let s4 : ℚ := if c.channel_type = "main" then 0.3 else 0.1
  (s1 + s2 + s3 + s4) * confidence

/-- Embedding of `ChannelMatcher._score_channels`: the id-to-score map. -/
def score_channels (channels : List ScChannel) (video_category content_type : String)
    (confidence : ℚ) : List (ℕ × ℚ) :=
  channels.map (fun c => (c.id, score_channel video_category content_type confidence c))

/-- Embedding of `ChannelMatcher.find_best_channel` after the channels are
fetched: `max(scores.items(), key=score)` (first maximum wins, as Python's
max), returned only when the score exceeds the 0.3 threshold. -/
def find_best_channel (channels : List ScChannel) (video_category content_type : String)
    (confidence : ℚ) : Option ℕ :=
  match score_channels channels video_category content_type confidence with
  | [] => none
  | x :: xs =>
    let best := xs.foldl (fun b y => if b.2 < y.2 then y else b) x
    if 0.3 < best.2 then some best.1 else none

/-- The content fingerprint of `VideoProcessor._get_file_hash`:
`f"{name}_{size}_{mtime}"`; the MD5 hex digest applied afterwards is
modelled as the identity on the fingerprint string. -/
def file_fingerprint (name : String) (size mtime : ℕ) : String :=
  name ++ "_" ++ toString size ++ "_" ++ toString mtime

/-- Outcome of the pipeline steps between dedup check and return, abstracted:
the in-flight bookkeeping of `process_video` does not depend on it. -/
inductive PipelineOutcome where
  | success (queueId : ℕ)
  | failure (err : String)
deriving DecidableEq, Repr

/-- Embedding of `VideoProcessor.process_video` restricted to its error list
and its effect on `processing_cache` (the in-flight set). If the fingerprint
is already present, the code appends the already-processing error and
returns — but the `finally` block still runs and discards the fingerprint.
Otherwise the fingerprint is added and the `finally` block removes it. -/
def process_video_inflight (h : String) (outcome : PipelineOutcome)
    (cache : Finset String) : List String × Finset String :=
  if h ∈ cache then
    (["Already processing"], cache.erase h)
  else
    let cache2 := insert h cache
    ((match outcome with
      | .success _ => []
      | .failure e => [e]), cache2.erase h)

/-- Python's `int()` on a float: truncation toward zero. -/
def python_int (q : ℚ) : ℤ := if 0 ≤ q then ⌊q⌋ else ⌈q⌉

/-- The category bonus table of `VideoProcessor._calculate_priority`,
0 for unknown keys. -/
def category_boost (c : String) : ℤ :=
  match c with
  | "technology" => 10
  | "beauty" => 8
  | "gaming" => 7
  | "fashion" => 6
  | "food" => 5
  | _ => 0

/-- The content-type bonus table of `VideoProcessor._calculate_priority`,
0 for unknown keys. -/
def content_boost (ct : String) : ℤ :=
  match ct with
  | "review" => 10
  | "unboxing" => 8
  | "comparison" => 7
  | "tutorial" => 5
  | "haul" => 4
  | _ => 0

/-- Embedding of `VideoProcessor._calculate_priority`: base 50, plus
`int(confidence * 20)`, plus both bonus tables, capped at 100. -/
def calculate_priority (confidence : ℚ) (category content_type : String) : ℤ :=
  min 100 (50 + python_int (confidence * 20) + category_boost category + content_boost content_type)

/-- The priority formula as the claim states it, with `round` in place of the
code's truncation; kept separate so the two can be compared. -/
def claimed_priority (confidence : ℚ) (category content_type : String) : ℤ :=
  min 100 (50 + round (confidence * 20) + category_boost category + content_boost content_type)

/-- The priority formula of the amended claim: the confidence term is the
floor of `confidence * 20` (equal to Python's truncation for nonnegative
confidence). -/
def amended_priority (confidence : ℚ) (category content_type : String) : ℤ :=
  min 100 (50 + ⌊confidence * 20⌋ + category_boost category + content_boost content_type)

/-- Result shape of `DatabaseManager.execute_query`: row list and rowcount. -/
structure SqlRes where
  data : List QItem
  rowcount : ℤ

/-- An arbitrary backing store for the exception-propagation model: each
primitive the queue manager calls may either return a value or raise
(`Except.error`). The numeric argument of `exec_query` distinguishes call
sites. -/
structure DbOracle where
  pg_dsn : Bool
  file_exists : Except String Bool
  file_size_mb : Except String ℚ
  db_add : Except String (Option QItem)
  db_get_items : Option Status → ℕ → Except String (List QItem)
  db_update_item : ℕ → Except String (Option QItem)
  exec_query : ℕ → Except String SqlRes

/-- Control flow of `QueueManager.add_to_queue` over an arbitrary backing
store: the whole body sits in one try/except returning `None` on error. -/
def qm_add_to_queue (db : DbOracle) (minMB maxMB : ℚ) (queueId : ℕ) :
    Except String (Option ℕ) :=
  Except.tryCatch
    (do
      let ex ← db.file_exists
      if !ex then pure none
      else do
        let sz ← db.file_size_mb
        if maxMB < sz then pure none
        else if sz < minMB then pure none
        else if !db.pg_dsn then do
          let rec? ← db.db_add
          match rec? with
          | some r => pure (some r.id)
          | none => pure none
        else do
          let _ ← db.exec_query 1
          pure (some queueId))
    (fun _ => Except.ok none)

/-- Control flow of `QueueManager._get_current_status`: one try/except
returning `None` on error. -/
def qm_get_current_status (db : DbOracle) (qid : ℕ) : Except String (Option Status) :=
  Except.tryCatch
    (do
      if !db.pg_dsn then do
        let items ← db.db_get_items none 100
        pure ((items.find? (fun (i : QItem) => i.id = qid)).map (fun i => i.status))
      else do
        let r ← db.exec_query 2
        pure (r.data.head?.map (fun i => i.status)))
    (fun _ => Except.ok none)

/-- Control flow of `QueueManager.update_status`: one try/except returning
`False` on error. -/
def qm_update_status (db : DbOracle) (qid : ℕ) (newStatus : Status) :
    Except String Bool :=
  Except.tryCatch
    (do
      let cur? ← qm_get_current_status db qid
      match cur? with
      | none => pure false
      | some cur =>
        if newStatus ∉ status_transitions cur ∧ newStatus ≠ cur then pure false
        else if !db.pg_dsn then do
          let _ ← db.db_update_item qid
          pure true
        else do
          let _ ← db.exec_query 3
          pure true)
    (fun _ => Except.ok false)

/-- Control flow of `QueueManager.get_next_video`: the main try/except whose
handler retries the memory/REST path inside a nested try with a bare
`except: pass`, then returns `None`. -/
def qm_get_next_video (db : DbOracle) : Except String (Option QItem) :=
  Except.tryCatch
    (do
      if !db.pg_dsn then do
        let items ← db.db_get_items (some .pending) 1
        match items with
        | [] => pure none
        | e :: _ => do
          let _ ← db.db_update_item e.id
          pure (some e)
      else do
        let r ← db.exec_query 4
        match r.data with
        | [] => pure none
        | e :: _ => do
          let _ ← qm_update_status db e.id .processing
          pure (some e))
    (fun _ =>
      Except.tryCatch
        (do
          let items ← db.db_get_items (some .pending) 1
          match items with
          | [] => pure none
          | e :: _ => do
            let _ ← db.db_update_item e.id
            pure (some e))
        (fun _ => Except.ok none))

/-- Control flow of `QueueManager.retry_failed`: one try/except returning
`False` on error around a call to `update_status`. -/
def qm_retry_failed (db : DbOracle) (qid : ℕ) : Except String Bool :=
  Except.tryCatch (qm_update_status db qid .pending) (fun _ => Except.ok false)

/-- Control flow of `QueueManager.clean_old_entries`: one try/except
returning 0 on error around the DELETE query. -/
def qm_clean_old_entries (db : DbOracle) : Except String ℤ :=
  Except.tryCatch
    (do
      let r ← db.exec_query 5
      pure r.rowcount)
    (fun _ => Except.ok 0)

/-- Store after creating item 1 (priority 60) via the in-memory create path. -/
def c1_state1 : Store :=
  (add_to_queue 10 150 true 50 "a.mp4" "a.mp4" 7 "t" "d" [] none 60 none 1 101 0 []).2

/-- Store after also creating item 2 (priority 40). -/
def c1_state2 : Store :=
  (add_to_queue 10 150 true 50 "b.mp4" "b.mp4" 7 "t" "d" [] none 40 none 2 102 1 c1_state1).2

/-- C1: two items with distinct priorities are created through the in-memory
path, then `get_next_video` is called twice. Both calls return item 1
(priority 60): the post-claim status update is keyed by the record's `id`,
which differs from the store key the record was filed under, so the claimed
item never leaves pending and the second claim does not return item 2
(priority 40) as the claim requires. -/
theorem C1_repeated_claims_duplicate :
    ((get_next_video 2 c1_state2).1.map (fun i => (i.id, i.priority)) = some (1, 60)) ∧
    ((get_next_video 3 (get_next_video 2 c1_state2).2).1.map (fun i => (i.id, i.priority))
      = some (1, 60)) := by
  decide

/-- A pending item assigned to channel 7. -/
def c2_item : QItem :=
  { id := 1, video_file_path := "v.mp4", video_file_name := "v.mp4", file_size_mb := 50
    channel_id := 7, title := "t", description := "d", tags := [], coupang_url := none
    priority := 90, scheduled_time := none, status := .pending
    created_at := 0, updated_at := 0, error_message := none }

/-- Channel 7, active, with daily capacity 3. -/
def c2_channel : Channel := { id := 7, is_active := true, max_daily_uploads := 3 }

/-- C2 counterexample: channel 7 has reached its capacity (3 of 3 today, so
the code's own `check_channel_upload_limit` returns false), yet the
in-memory path of `get_next_video` returns the pending item assigned to it:
that path applies no destination predicate at all. -/
theorem C2_memory_counterexample :
    check_channel_upload_limit [c2_channel] (fun _ => 3) 7 = false ∧
    ((get_next_video 5 [(1, c2_item)]).1.map (fun i => i.channel_id) = some 7) := by
  decide

/-- C2 amended: on the SQL path, whenever `get_next_video` returns an item,
that item's channel is active and strictly under its daily capacity — the
WHERE clause includes `check_channel_upload_limit`, so a destination at
capacity is never selected there. -/
theorem C2_sql_quota_enforced (st : SqlState) (q : QItem)
    (h : (sql_get_next_video st).1 = some q) :
    ∃ c ∈ st.channels, c.id = q.channel_id ∧ c.is_active = true ∧
      st.uploads q.channel_id < c.max_daily_uploads := by
  unfold sql_get_next_video at h
  cases htake : ((st.queue.filter (sql_eligible st)).insertionSort keyLe).take 1 with
  | nil => rw [htake] at h; exact absurd h (by simp)
  | cons e rest =>
    rw [htake] at h
    simp only [Option.some.injEq] at h
    rw [← h]
    have he : e ∈ ((st.queue.filter (sql_eligible st)).insertionSort keyLe).take 1 := by
      rw [htake]; exact List.mem_cons_self _ _
    have he2 : e ∈ (st.queue.filter (sql_eligible st)).insertionSort keyLe :=
      (List.take_sublist _ _).mem he
    have he3 : e ∈ st.queue.filter (sql_eligible st) := by
      rwa [List.mem_insertionSort] at he2
    have helig : sql_eligible st e = true := List.of_mem_filter he3
    unfold sql_eligible at helig
    simp only [Bool.and_eq_true] at helig
    have hlim : check_channel_upload_limit st.channels st.uploads e.channel_id = true :=
      helig.2
    unfold check_channel_upload_limit at hlim
    cases hfind : st.channels.find? (fun c => c.id = e.channel_id ∧ c.is_active = true) with
    | none => rw [hfind] at hlim; exact absurd hlim (by simp)
    | some c =>
      rw [hfind] at hlim
      have hc := List.find?_some hfind
      simp only [decide_eq_true_eq] at hc hlim
      exact ⟨c, List.mem_of_find?_eq_some hfind, hc.1, hc.2, hc.1 ▸ hlim⟩

/-- Witness state for the SQL claim path: one eligible pending item. -/
def c2w_item : QItem :=
  { id := 3, video_file_path := "w.mp4", video_file_name := "w.mp4", file_size_mb := 50
    channel_id := 7, title := "t", description := "d", tags := [], coupang_url := none
    priority := 10, scheduled_time := none, status := .pending
    created_at := 0, updated_at := 0, error_message := none }

/-- Witness state: the queue holds `c2w_item`, channel 7 is active with
capacity 3 and no uploads today. -/
def c2w_state : SqlState :=
  { queue := [c2w_item], channels := [c2_channel], uploads := fun _ => 0, now := 9 }

/-- Witness for the amended C2 theorem at a concrete state. -/
theorem C2_sql_quota_enforced_witness :
    ∃ c ∈ c2w_state.channels, c.id = c2w_item.channel_id ∧ c.is_active = true ∧
      c2w_state.uploads c2w_item.channel_id < c.max_daily_uploads :=
  C2_sql_quota_enforced c2w_state c2w_item (by decide)

/-- An item already in the terminal uploaded state. -/
def c3_item : QItem :=
  { id := 1, video_file_path := "v.mp4", video_file_name := "v.mp4", file_size_mb := 50
    channel_id := 7, title := "t", description := "d", tags := [], coupang_url := none
    priority := 50, scheduled_time := none, status := .uploaded
    created_at := 0, updated_at := 0, error_message := none }

/-- C3 counterexample: uploaded → uploaded is not in the transition table
(uploaded is terminal with no successors), yet `update_status` accepts the
request and reports success, because the code lets any request whose target
equals the current status through. -/
theorem C3_self_transition_accepted :
    Status.uploaded ∉ status_transitions .uploaded ∧
    (update_status 1 .uploaded none 5 [(1, c3_item)]).1.ok = true := by
  decide

/-- C3 amended: a requested transition that is not in the table AND differs
from the current status is rejected — `update_status` returns failure, logs
the current/requested pair, and leaves the store untouched. -/
theorem C3_invalid_transition_rejected (s : Store) (qid : ℕ) (newStatus : Status)
    (em : Option String) (now : ℕ) (cur : Status)
    (hc : get_current_status qid s = some cur)
    (h1 : newStatus ∉ status_transitions cur) (h2 : newStatus ≠ cur) :
    update_status qid newStatus em now s = (⟨false, some (cur, newStatus)⟩, s) := by
  unfold update_status
  rw [hc]
  dsimp only
  rw [if_pos ⟨h1, h2⟩]

/-- A pending item used in the C3 witness. -/
def c3_pending_item : QItem :=
  { id := 1, video_file_path := "v.mp4", video_file_name := "v.mp4", file_size_mb := 50
    channel_id := 7, title := "t", description := "d", tags := [], coupang_url := none
    priority := 50, scheduled_time := none, status := .pending
    created_at := 0, updated_at := 0, error_message := none }

/-- Witness for the amended C3 theorem: pending → uploaded is not tabled and
is rejected without touching the store. -/
theorem C3_invalid_transition_rejected_witness :
    update_status 1 .uploaded none 5 [(1, c3_pending_item)] =
      (⟨false, some (.pending, .uploaded)⟩, [(1, c3_pending_item)]) :=
  C3_invalid_transition_rejected [(1, c3_pending_item)] 1 .uploaded none 5 .pending
    (by decide) (by decide) (by decide)

/-- A ready item on channel 5, about to be marked uploaded. -/
def c4_item : QItem :=
  { id := 1, video_file_path := "v.mp4", video_file_name := "v.mp4", file_size_mb := 50
    channel_id := 5, title := "t", description := "d", tags := [], coupang_url := none
    priority := 50, scheduled_time := none, status := .ready
    created_at := 0, updated_at := 0, error_message := none }

/-- The run of `mark_as_uploaded` with a fault injected at the quota
increment, on a state holding one ready item and zero uploads today. -/
def c4_run : Bool × UpState :=
  mark_as_uploaded true 1 "yt" "url" 9 { queue := [c4_item], history := [], uploads := fun _ => 0 }

/-- C4: with a fault at the quota-increment query, `mark_as_uploaded` still
reports success and commits a partial state: the history row is inserted and
the item is uploaded, but channel 5's daily counter is unchanged —
`_increment_upload_count` swallows the exception inside the transaction, so
the claimed all-or-nothing behaviour does not hold. -/
theorem C4_partial_commit_on_increment_fault :
    c4_run.1 = true ∧
    c4_run.2.history.length = 1 ∧
    ((c4_run.2.queue.find? (fun (i : QItem) => i.id = 1)).map (fun i => i.status)
      = some .uploaded) ∧
    c4_run.2.uploads 5 = 0 := by
  decide

/-- Destination A of the scoring example: technology, main, capacity 3,
no uploads today. -/
def c5_channel_a : ScChannel :=
  { id := 1, category := "technology", channel_type := "main"
    max_daily_uploads := 3, today_uploads := 0 }

/-- Destination B of the scoring example: lifestyle, sub, capacity 3,
two uploads today. -/
def c5_channel_b : ScChannel :=
  { id := 2, category := "lifestyle", channel_type := "sub"
    max_daily_uploads := 3, today_uploads := 2 }

/-- The score the code computes for destination A on the example inputs. -/
theorem c5_score_a :
    score_channel "technology" "unknown" 0.8 c5_channel_a = 1.68 := by
  unfold score_channel c5_channel_a
  norm_num [show py_lower "technology" = "technology" from by decide,
    category_mapping, content_type_weight, weight_lookup]

/-- The score the code computes for destination B on the example inputs. -/
theorem c5_score_b :
    score_channel "technology" "unknown" 0.8 c5_channel_b = 0.8 := by
  unfold score_channel c5_channel_b
  norm_num [show py_lower "technology" = "technology" from by decide,
    show py_lower "lifestyle" = "lifestyle" from by decide,
    category_mapping, content_type_weight, weight_lookup]
  rw [if_neg (show ¬("lifestyle" = "technology" ∨ "lifestyle" = "tech" ∨
        "lifestyle" = "gadget" ∨ "lifestyle" = "review") from by decide),
    if_neg (show ¬("sub" = "main") from by decide)]
  norm_num

/-- C5 counterexample: on the claimed inputs the code scores destination A at
(1.0 + 0.5 + 0.3 + 0.3) * 0.8 = 1.68, not the claimed 1.664. -/
theorem C5_score_not_claimed_value :
    score_channel "technology" "unknown" 0.8 c5_channel_a = 1.68 ∧
    (1.68 : ℚ) ≠ 1.664 := by
  constructor
  · exact c5_score_a
  · norm_num

/-- C5 amended: on the example inputs the scorer computes 1.68 for A and 0.8
for B, and `find_best_channel` selects A. -/
theorem C5_scoring_example :
    score_channel "technology" "unknown" 0.8 c5_channel_a = 1.68 ∧
    score_channel "technology" "unknown" 0.8 c5_channel_b = 0.8 ∧
    find_best_channel [c5_channel_a, c5_channel_b] "technology" "unknown" 0.8 = some 1 := by
  refine ⟨c5_score_a, c5_score_b, ?_⟩
  unfold find_best_channel score_channels
  simp only [List.map_cons, List.map_nil, List.foldl_cons, List.foldl_nil,
    c5_score_a, c5_score_b]
  norm_num [c5_channel_a, c5_channel_b]

/-- C6: a call arriving while the fingerprint is already in the in-flight set
does return the already-processing error, but the `finally` block still runs
on that early return and discards the fingerprint: the in-flight set is
emptied instead of left unchanged, so the first call loses its dedup marker. -/
theorem C6_duplicate_call_clears_inflight :
    process_video_inflight (file_fingerprint "clip.mp4" 42 7) (.success 1)
        {file_fingerprint "clip.mp4" 42 7} =
      (["Already processing"], (∅ : Finset String)) ∧
    ({file_fingerprint "clip.mp4" 42 7} : Finset String) ≠ ∅ := by
  constructor
  · unfold process_video_inflight
    rw [if_pos (Finset.mem_singleton_self _)]
    rw [Finset.erase_singleton]
  · exact Finset.singleton_ne_empty _

/-- C7 counterexample: at confidence 0.33 the code's truncation gives
int(6.6) = 6 and priority 76, while the claimed rounding gives 7 and 77. -/
theorem C7_round_vs_truncate :
    calculate_priority (33/100) "technology" "review" = 76 ∧
    claimed_priority (33/100) "technology" "review" = 77 ∧
    (76 : ℤ) ≠ 77 := by
  refine ⟨?_, ?_, by decide⟩
  · unfold calculate_priority python_int category_boost content_boost
    rw [if_pos (by norm_num : (0:ℚ) ≤ 33/100 * 20)]
    norm_num
  · unfold claimed_priority category_boost content_boost
    norm_num [round_eq]

/-- C7 amended: for nonnegative confidence the code's priority equals the
fixed rubric with the confidence term floored (truncated) rather than
rounded: min(100, 50 + floor(confidence*20) + category bonus + content-type
bonus). -/
theorem C7_priority_formula (confidence : ℚ) (category content_type : String)
    (h : 0 ≤ confidence) :
    calculate_priority confidence category content_type =
      amended_priority confidence category content_type := by
  unfold calculate_priority amended_priority python_int
  rw [if_pos (mul_nonneg h (by norm_num))]

/-- Witness for the amended C7 theorem at confidence 0.8. -/
theorem C7_priority_formula_witness :
    calculate_priority (4/5) "technology" "review" =
      amended_priority (4/5) "technology" "review" :=
  C7_priority_formula (4/5) "technology" "review" (by norm_num)

/-- C9 counterexample: an in-bounds file with EMPTY title and description is
accepted — `add_to_queue` persists the pending item and returns its id, so
the claimed rejection of empty title/description does not happen. -/
theorem C9_empty_title_accepted :
    (add_to_queue 10 150 true 50 "v.mp4" "v.mp4" 7 "" "" [] none 50 none 1 101 0 []).1
      = some 1 ∧
    ((values (add_to_queue 10 150 true 50 "v.mp4" "v.mp4" 7 "" "" [] none 50 none 1 101 0 []).2).map
      (fun i => (i.title, i.description, i.status)) = [("", "", .pending)]) := by
  decide

/-- C9 amended: `add_to_queue` rejects — leaving the store untouched —
exactly when the file is missing or its size is outside [minMB, maxMB];
otherwise it persists a pending item built from the inputs and returns its
id. Title and description are not validated: they may be any strings,
including empty ones. -/
theorem C9_create_validation (minMB maxMB fileSizeMB : ℚ) (fe : Bool)
    (vp vn : String) (cid : ℕ) (title description : String) (tags : List String)
    (cu : Option String) (pr : ℤ) (sch : Option ℕ) (qid dbKey now : ℕ) (s : Store) :
    (fe = false ∨ maxMB < fileSizeMB ∨ fileSizeMB < minMB →
      add_to_queue minMB maxMB fe fileSizeMB vp vn cid title description tags cu pr sch
        qid dbKey now s = (none, s)) ∧
    (fe = true → ¬ maxMB < fileSizeMB → ¬ fileSizeMB < minMB →
      add_to_queue minMB maxMB fe fileSizeMB vp vn cid title description tags cu pr sch
        qid dbKey now s =
        (some qid, s ++ [(dbKey,
          { id := qid, video_file_path := vp, video_file_name := vn
            file_size_mb := fileSizeMB, channel_id := cid, title := title
            description := description, tags := tags, coupang_url := cu
            priority := pr, scheduled_time := sch, status := .pending
            created_at := now, updated_at := now, error_message := none })])) := by
  constructor
  · intro h
    unfold add_to_queue
    rcases h with h | h | h
    · rw [if_pos h]
    · by_cases hfe : fe = false
      · rw [if_pos hfe]
      · rw [if_neg hfe, if_pos h]
    · by_cases hfe : fe = false
      · rw [if_pos hfe]
      · rw [if_neg hfe]
        by_cases hmax : maxMB < fileSizeMB
        · rw [if_pos hmax]
        · rw [if_neg hmax, if_pos h]
  · intro hfe hmax hmin
    unfold add_to_queue
    rw [if_neg (by simp [hfe]), if_neg hmax, if_neg hmin]
    rfl

/-- Witness for the amended C9 theorem: an oversized file is rejected, and an
in-bounds file with empty title is persisted as pending. -/
theorem C9_create_validation_witness :
    add_to_queue 10 150 true 200 "v.mp4" "v.mp4" 7 "t" "d" [] none 50 none 1 101 0 []
      = (none, []) ∧
    add_to_queue 10 150 true 50 "v.mp4" "v.mp4" 7 "" "" [] none 50 none 1 101 0 []
      = (some 1, [(101,
        { id := 1, video_file_path := "v.mp4", video_file_name := "v.mp4"
          file_size_mb := 50, channel_id := 7, title := "", description := ""
          tags := [], coupang_url := none, priority := 50, scheduled_time := none
          status := .pending, created_at := 0, updated_at := 0
          error_message := none })]) :=
  ⟨(C9_create_validation 10 150 200 true "v.mp4" "v.mp4" 7 "t" "d" [] none 50 none
      1 101 0 []).1 (Or.inr (Or.inl (by norm_num))),
   (C9_create_validation 10 150 50 true "v.mp4" "v.mp4" 7 "" "" [] none 50 none
      1 101 0 []).2 rfl (by norm_num) (by norm_num)⟩

/-- Failed item number `i` for the sweep scenario: priority `i`, created at
`i`, last updated at `100 + i` (so higher ids are more recently updated). -/
def c8_item (i : ℕ) : QItem :=
  { id := i, video_file_path := "v.mp4", video_file_name := "v.mp4", file_size_mb := 50
    channel_id := 7, title := "t", description := "d", tags := [], coupang_url := none
    priority := (i : ℤ), scheduled_time := none, status := .failed
    created_at := i, updated_at := 100 + i, error_message := none }

/-- Fifteen failed items, ids 1..15, store keys matching ids. -/
def c8_store : Store := (List.range 15).map (fun i => (i + 1, c8_item (i + 1)))

/-- C8 counterexample: in the 15-item sweep scenario the batch is NOT the 10
oldest by `updated_at`. Item 15 has the newest `updated_at` of all (so per
the claim it must stay failed), yet the sweep retries it to pending because
it has the highest priority; item 1 has the oldest `updated_at` (per the
claim it must transition), yet it stays failed. -/
theorem C8_sweep_not_oldest_by_updated :
    (∀ j ∈ values c8_store, j.updated_at ≤ (c8_item 15).updated_at) ∧
    ((values (reprocess_failed 200 c8_store).2).find? (fun (i : QItem) => i.id = 15)).map
      (fun i => i.status) = some .pending ∧
    ((values (reprocess_failed 200 c8_store).2).find? (fun (i : QItem) => i.id = 1)).map
      (fun i => i.status) = some .failed := by
  decide

/-- Helper: when every store key equals its record's id, the key list is the
id list of the values. -/
theorem values_ids_eq (s : Store) (hkeys : ∀ p ∈ s, p.1 = p.2.id) :
    s.map Prod.fst = (values s).map (fun i => i.id) := by
  unfold values
  rw [List.map_map]
  exact List.map_congr_left hkeys

/-- Helper: retrying one failed entry whose key equals its id rewrites
exactly that entry to pending (clearing the error, bumping `updated_at`). -/
theorem retry_failed_applies (now : ℕ) (s : Store) (e : QItem)
    (hkeys : ∀ p ∈ s, p.1 = p.2.id)
    (hnodup : (s.map Prod.fst).Nodup)
    (hlen : s.length ≤ 100)
    (hp : ∃ p ∈ s, p.1 = e.id ∧ p.2.status = .failed) :
    (retry_failed e.id now s).2 =
      s.map (fun p =>
        if p.1 = e.id then (p.1, applyUpdate .pending (some none) now p.2) else p) := by
  obtain ⟨p, hps, hpk, hpst⟩ := hp
  have hpid : p.2.id = e.id := (hkeys p hps) ▸ hpk
  have hsortlen : ((values s).insertionSort keyLe).length ≤ 100 := by
    rw [List.length_insertionSort]
    unfold values
    rw [List.length_map]
    exact hlen
  have hlist : get_queue_items none 100 s = (values s).insertionSort keyLe :=
    List.take_of_length_le hsortlen
  have hmemv : p.2 ∈ values s := List.mem_map_of_mem Prod.snd hps
  have hmemsort : p.2 ∈ (values s).insertionSort keyLe := by
    rw [List.mem_insertionSort]; exact hmemv
  have hidsnodup : ((values s).map (fun i => i.id)).Nodup := by
    rw [← values_ids_eq s hkeys]; exact hnodup
  have hcur : get_current_status e.id s = some Status.failed := by
    unfold get_current_status
    rw [hlist]
    cases hfind : ((values s).insertionSort keyLe).find? (fun (i : QItem) => i.id = e.id) with
    | none =>
      exfalso
      have hno := List.find?_eq_none.mp hfind p.2 hmemsort
      simp only [decide_eq_true_eq] at hno
      exact hno hpid
    | some y =>
      have hy1 := List.find?_some hfind
      simp only [decide_eq_true_eq] at hy1
      have hy2 : y ∈ (values s).insertionSort keyLe := List.mem_of_find?_eq_some hfind
      have hyv : y ∈ values s := (List.mem_insertionSort _).mp hy2
      have hyp2 : y = p.2 :=
        List.inj_on_of_nodup_map hidsnodup hyv hmemv (by rw [hy1, hpid])
      simp [hyp2, hpst]
  unfold retry_failed update_status
  rw [hcur]
  dsimp only
  rw [if_neg (by decide :
    ¬(Status.pending ∉ status_transitions Status.failed ∧ Status.pending ≠ Status.failed))]
  have hfindk : s.find? (fun (q : ℕ × QItem) => q.1 = e.id) ≠ none := by
    intro h
    have hno := List.find?_eq_none.mp h p hps
    simp only [decide_eq_true_eq] at hno
    exact hno hpk
  cases hfk : s.find? (fun (q : ℕ × QItem) => q.1 = e.id) with
  | none => exact absurd hfk hfindk
  | some w =>
    unfold update_queue_item
    rw [hfk]

/-- Helper: folding the retry step over a batch of failed entries with
pairwise-distinct ids rewrites exactly the batch entries to pending. -/
theorem fold_retry (now : ℕ) :
    ∀ (batch : List QItem) (s : Store),
    (∀ p ∈ s, p.1 = p.2.id) →
    (s.map Prod.fst).Nodup →
    s.length ≤ 100 →
    (batch.map (fun i => i.id)).Nodup →
    (∀ e ∈ batch, ∃ p ∈ s, p.1 = e.id ∧ p.2.status = .failed) →
    batch.foldl (fun acc e => (retry_failed e.id now acc).2) s =
      s.map (fun p =>
        if p.1 ∈ batch.map (fun (i : QItem) => i.id)
        then (p.1, applyUpdate .pending (some none) now p.2) else p) := by
  intro batch
  induction batch with
  | nil =>
    intro s _ _ _ _ _
    simp
  | cons e rest ih =>
    intro s hkeys hnodup hlen hbn hmem
    rw [List.map_cons, List.nodup_cons] at hbn
    rw [List.foldl_cons]
    have hstep := retry_failed_applies now s e hkeys hnodup hlen
      (hmem e (List.mem_cons_self e rest))
    rw [hstep]
    have hkeys1 : ∀ p ∈ s.map (fun p =>
        if p.1 = e.id then (p.1, applyUpdate .pending (some none) now p.2) else p),
        p.1 = p.2.id := by
      intro q hq
      obtain ⟨p, hp, rfl⟩ := List.mem_map.mp hq
      by_cases hc : p.1 = e.id
      · simp only [if_pos hc]
        exact hkeys p hp
      · simp only [if_neg hc]
        exact hkeys p hp
    have hfst1 : (s.map (fun p =>
        if p.1 = e.id then (p.1, applyUpdate .pending (some none) now p.2) else p)).map
          Prod.fst = s.map Prod.fst := by
      rw [List.map_map]
      refine List.map_congr_left (fun p _ => ?_)
      by_cases hc : p.1 = e.id <;> simp [hc]
    have hnodup1 : ((s.map (fun p =>
        if p.1 = e.id then (p.1, applyUpdate .pending (some none) now p.2) else p)).map
          Prod.fst).Nodup := by
      rw [hfst1]; exact hnodup
    have hlen1 : (s.map (fun p =>
        if p.1 = e.id then (p.1, applyUpdate .pending (some none) now p.2) else p)).length
          ≤ 100 := by
      rw [List.length_map]; exact hlen
    have hmem1 : ∀ e' ∈ rest, ∃ p ∈ s.map (fun p =>
        if p.1 = e.id then (p.1, applyUpdate .pending (some none) now p.2) else p),
        p.1 = e'.id ∧ p.2.status = .failed := by
      intro e' he'
      obtain ⟨p, hp, hpk, hpst⟩ := hmem e' (List.mem_cons_of_mem e he')
      have hne : p.1 ≠ e.id := by
        rw [hpk]
        intro hcontra
        exact hbn.1 (hcontra ▸ List.mem_map_of_mem (fun (i : QItem) => i.id) he')
      refine ⟨p, ?_, hpk, hpst⟩
      have hmm := List.mem_map_of_mem (fun p =>
        if p.1 = e.id then (p.1, applyUpdate .pending (some none) now p.2) else p) hp
      simpa [hne] using hmm
    have hrest := ih (s.map (fun p =>
      if p.1 = e.id then (p.1, applyUpdate .pending (some none) now p.2) else p))
      hkeys1 hnodup1 hlen1 hbn.2 hmem1
    rw [hrest, List.map_map]
    refine List.map_congr_left (fun p _ => ?_)
    by_cases hc : p.1 = e.id
    · have hni : p.1 ∉ rest.map (fun (i : QItem) => i.id) := by
        rw [hc]; exact hbn.1
      simp [hc, hni]
      intro x hx hxe
      exact absurd (hxe ▸ List.mem_map_of_mem (fun (i : QItem) => i.id) hx) hbn.1
    · simp [hc, List.mem_cons]

/-- C8 amended: the sweep retries the BATCH given by the queue listing — up
to 10 failed items ordered by priority descending then `created_at`
ascending, not by oldest `updated_at` — transitioning exactly those to
pending (error cleared, `updated_at` bumped) and leaving every other entry,
including the remaining failed ones, unchanged. Stated for stores whose keys
match their record ids (as direct store inserts produce), are duplicate-free
and of size at most 100 (the window `_get_current_status` scans). -/
theorem C8_sweep_batch (s : Store) (now : ℕ)
    (hkeys : ∀ p ∈ s, p.1 = p.2.id)
    (hnodup : (s.map Prod.fst).Nodup)
    (hlen : s.length ≤ 100) :
    (reprocess_failed now s).2 =
      s.map (fun p =>
        if p.1 ∈ (get_queue_items (some .failed) 10 s).map (fun (i : QItem) => i.id)
        then (p.1, applyUpdate .pending (some none) now p.2) else p) := by
  have hids : ((values s).map (fun i => i.id)).Nodup := by
    rw [← values_ids_eq s hkeys]; exact hnodup
  have hfiltered : (((values s).filter (fun (i : QItem) => i.status = .failed)).map
      (fun i => i.id)).Nodup :=
    List.Nodup.sublist (List.Sublist.map _ (List.filter_sublist _)) hids
  have hsorted : ((((values s).filter (fun (i : QItem) => i.status = .failed)).insertionSort
      keyLe).map (fun i => i.id)).Nodup :=
    ((List.perm_insertionSort keyLe _).map _).nodup_iff.mpr hfiltered
  have hbatchnodup : ((get_queue_items (some .failed) 10 s).map (fun i => i.id)).Nodup :=
    List.Nodup.sublist (List.Sublist.map _ (List.take_sublist _ _)) hsorted
  have hbatchmem : ∀ e ∈ get_queue_items (some .failed) 10 s,
      ∃ p ∈ s, p.1 = e.id ∧ p.2.status = .failed := by
    intro e he
    have he1 : e ∈ ((values s).filter (fun (i : QItem) =>
        i.status = .failed)).insertionSort keyLe :=
      (List.take_sublist _ _).mem he
    have he2 : e ∈ (values s).filter (fun (i : QItem) => i.status = .failed) :=
      (List.mem_insertionSort _).mp he1
    obtain ⟨hev, hest⟩ := List.mem_filter.mp he2
    simp only [decide_eq_true_eq] at hest
    obtain ⟨p, hp, hpe⟩ := List.mem_map.mp hev
    exact ⟨p, hp, by rw [hkeys p hp, hpe], by rw [hpe]; exact hest⟩
  exact fold_retry now (get_queue_items (some .failed) 10 s) s hkeys hnodup hlen
    hbatchnodup hbatchmem

/-- A small store for the C8 witness: two failed items with keys equal to
their ids. -/
def c8w_store : Store := [(1, c8_item 1), (2, c8_item 2)]

/-- Witness for the amended C8 theorem at a concrete two-item store. -/
theorem C8_sweep_batch_witness :
    (reprocess_failed 200 c8w_store).2 =
      c8w_store.map (fun p =>
        if p.1 ∈ (get_queue_items (some .failed) 10 c8w_store).map (fun (i : QItem) => i.id)
        then (p.1, applyUpdate .pending (some none) 200 p.2) else p) :=
  C8_sweep_batch c8w_store 200 (by decide) (by decide) (by decide)

/-- Helper: a tryCatch whose handler always succeeds never propagates an
error. -/
theorem tryCatch_ok {α : Type} (body : Except String α) (h : String → Except String α)
    (hh : ∀ e, (h e).isOk = true) : (Except.tryCatch body h).isOk = true := by
  cases body with
  | ok a => rfl
  | error e => exact hh e

/-- C10: over an arbitrary backing store, in which every primitive call may
raise, the five public queue operations always return a plain value — every
internal error is absorbed by the operations' own handlers, so no exception
reaches the caller. -/
theorem C10_public_ops_total (db : DbOracle) (minMB maxMB : ℚ) (queueId qid : ℕ)
    (newStatus : Status) :
    (qm_add_to_queue db minMB maxMB queueId).isOk = true ∧
    (qm_get_next_video db).isOk = true ∧
    (qm_update_status db qid newStatus).isOk = true ∧
    (qm_retry_failed db qid).isOk = true ∧
    (qm_clean_old_entries db).isOk = true := by
  refine ⟨?_, ?_, ?_, ?_, ?_⟩
  · exact tryCatch_ok _ _ (fun _ => rfl)
  · exact tryCatch_ok _ _ (fun _ => tryCatch_ok _ _ (fun _ => rfl))
  · exact tryCatch_ok _ _ (fun _ => rfl)
  · exact tryCatch_ok _ _ (fun _ => rfl)
  · exact tryCatch_ok _ _ (fun _ => rfl)

end UGC
